import Mathlib

/- Verification development for the nfl-calculate-stats repository.

   Shallow embedding of the stat-aggregation pipeline:
   clean_pbp.py (Play Record Cleaner), playstats.py (Event Flag Enricher),
   pbp_off_stats.py (derived-stat extractors), process_stats.py
   (Stat Aggregator) and calculate_stats.py (entry point).

   Tables are lists of rows; a DataFrame cell that can be NaN/null is an
   Option; numeric cells are rationals; boolean columns are 0/1 rationals
   exactly as pandas stores them after astype(int). -/

/-! ## pandas / Python cell-level primitives -/

/-- pandas `fillna c` on a single cell: a missing value becomes `c`. -/
def fillna {α : Type} (c : α) (x : Option α) : Option α :=
  some (x.getD c)

/-- Python `int()` / numpy `astype(int)`: truncation of a float toward zero
    (num.tdiv den is the floor for nonnegative rationals and the ceiling for
    negative ones). -/
def pyTrunc (q : ℚ) : ℤ :=
  q.num.tdiv q.den

/-- Truncation toward zero, kept in the (rational-valued) numeric cell model. -/
def pyIntQ (q : ℚ) : ℚ :=
  (pyTrunc q : ℚ)

/-- `pd.to_numeric(col, errors="coerce").fillna(0).astype(int)` on one cell.
    Numeric cells are modelled as rationals, so `to_numeric` is the identity
    there; the cell is filled with 0 and truncated to an integer. -/
def intCol (x : Option ℚ) : Option ℚ :=
  some (pyIntQ (x.getD 0))

/-- `pd.to_numeric(col, errors="coerce")` on an already-numeric cell:
    nulls stay null, numbers stay themselves. -/
def floatCol (x : Option ℚ) : Option ℚ :=
  x

/-- Is every character a decimal digit (structural, so that concrete
    evaluation reduces). -/
def allDigits : List Char → Bool
  | [] => true
  | c :: cs => c.isDigit && allDigits cs

/-- The test `pd.to_numeric(cell, errors="coerce").notna()` for a string
    cell: does the string parse as a number (modelled as an optionally
    signed nonempty digit string). -/
def toNumericOk (s : String) : Bool :=
  match s.data with
  | [] => false
  | '-' :: cs => !cs.isEmpty && allDigits cs
  | c :: cs => c.isDigit && allDigits cs

/-- numpy truth value of a comparison, stored as 0/1 after `astype(int)`. -/
def b2q (b : Bool) : ℚ :=
  if b then 1 else 0

@[simp]
theorem fillna_some {α : Type} (c : α) (v : α) : fillna c (some v) = some v := rfl

@[simp]
theorem fillna_none {α : Type} (c : α) : fillna c (none : Option α) = some c := rfl

@[simp]
theorem fillna_fillna {α : Type} (c : α) (x : Option α) :
    fillna c (fillna c x) = fillna c x := by
  cases x <;> rfl

@[simp]
theorem pyTrunc_intCast (n : ℤ) : pyTrunc (n : ℚ) = n := by
  unfold pyTrunc
  simp [Rat.num_intCast, Rat.den_intCast, Int.tdiv_one]

@[simp]
theorem pyIntQ_pyIntQ (q : ℚ) : pyIntQ (pyIntQ q) = pyIntQ q := by
  unfold pyIntQ
  simp

@[simp]
theorem intCol_intCol (x : Option ℚ) : intCol (intCol x) = intCol x := by
  unfold intCol
  simp

@[simp]
theorem fillna_intCol (c : ℚ) (x : Option ℚ) : fillna c (intCol x) = intCol x := rfl

@[simp]
theorem intCol_fillna_zero (x : Option ℚ) : intCol (fillna 0 x) = intCol x := by
  cases x <;> rfl

theorem pyIntQ_of_intCast (n : ℤ) : pyIntQ (n : ℚ) = (n : ℚ) := by
  unfold pyIntQ
  simp

/-! ## clean_pbp.py — the Play Record Cleaner

The schema is fixed at the essential-column allow-list of
`filter_pbp_columns`, so a table is a list of `Play` rows; every essential
column is present, and the derived `is_*` columns (which are not on the
allow-list) are `none` when absent. -/

/-- One play-by-play row, with the essential columns of
    `filter_pbp_columns` plus the derived columns of `add_derived_fields`. -/
structure Play where
  play_id : Option String
  game_id : Option String
  season : Option ℚ
  week : Option ℚ
  season_type : Option String
  home_team : Option String
  away_team : Option String
  posteam : Option String
  defteam : Option String
  game_date : Option String
  qtr : Option ℚ
  game_seconds_remaining : Option ℚ
  half_seconds_remaining : Option ℚ
  time_of_day : Option String
  down : Option ℚ
  ydstogo : Option ℚ
  yardline_100 : Option ℚ
  goal_to_go : Option ℚ
  score_differential : Option ℚ
  posteam_score : Option ℚ
  defteam_score : Option ℚ
  total_home_score : Option ℚ
  total_away_score : Option ℚ
  play_type : Option String
  shotgun : Option ℚ
  no_huddle : Option ℚ
  qb_dropback : Option ℚ
  qb_scramble : Option ℚ
  qb_kneel : Option ℚ
  qb_spike : Option ℚ
  pass_length : Option String
  pass_location : Option String
  run_location : Option String
  run_gap : Option String
  epa : Option ℚ
  qb_epa : Option ℚ
  wp : Option ℚ
  wpa : Option ℚ
  air_yards : Option ℚ
  yards_after_catch : Option ℚ
  cpoe : Option ℚ
  success : Option ℚ
  xpass : Option ℚ
  first_down_rush : Option ℚ
  first_down_pass : Option ℚ
  first_down : Option ℚ
  rush_attempt : Option ℚ
  pass_attempt : Option ℚ
  complete_pass : Option ℚ
  incomplete_pass : Option ℚ
  sack : Option ℚ
  touchdown : Option ℚ
  interception : Option ℚ
  fumble : Option ℚ
  fumble_lost : Option ℚ
  pass_touchdown : Option ℚ
  rush_touchdown : Option ℚ
  passer_player_id : Option String
  passer_player_name : Option String
  passing_yards : Option ℚ
  rusher_player_id : Option String
  rusher_player_name : Option String
  rushing_yards : Option ℚ
  receiver_player_id : Option String
  receiver_player_name : Option String
  receiving_yards : Option ℚ
  stadium : Option String
  roof : Option String
  surface : Option String
  temp : Option ℚ
  wind : Option ℚ
  div_game : Option ℚ
  special : Option ℚ
  special_teams_play : Option ℚ
  is_trailing : Option ℚ
  is_leading : Option ℚ
  is_red_zone : Option ℚ
  is_early_down : Option ℚ
  is_late_down : Option ℚ
  is_likely_pass : Option ℚ
  is_dropback : Option ℚ
  is_success : Option ℚ
deriving DecidableEq

/-- `filter_pbp_columns`: projection onto the essential-column allow-list.
    With the schema fixed to that list, its effect is to drop the columns
    that are not on the list — in particular the derived `is_*` columns a
    previous cleaning pass may have added; dropped columns are `none`. -/
def filter_pbp_columns (r : Play) : Play :=
  { r with
    is_trailing := none
    is_leading := none
    is_red_zone := none
    is_early_down := none
    is_late_down := none
    is_likely_pass := none
    is_dropback := none
    is_success := none }

/-- The 9-entry historical-to-current map of `normalize_team_abbreviations`,
    applied with `team_abbr_map.get(x, x)`. -/
def normTeam (x : String) : String :=
  if x = "STL" then "LA"
  else if x = "SD" then "LAC"
  else if x = "OAK" then "LV"
  else if x = "JAC" then "JAX"
  else if x = "SL" then "LA"
  else if x = "ARZ" then "ARI"
  else if x = "BLT" then "BAL"
  else if x = "CLV" then "CLE"
  else if x = "HST" then "HOU"
  else x

/-- `normalize_team_abbreviations`: the map is applied to the four team
    columns; a null cell stays null (`map` over the Series). -/
def normalize_team_abbreviations (r : Play) : Play :=
  { r with
    home_team := r.home_team.map normTeam
    away_team := r.away_team.map normTeam
    posteam := r.posteam.map normTeam
    defteam := r.defteam.map normTeam }

/-- `handle_missing_values`: the flag columns, `score_differential` (0),
    `yardline_100` (50) and every column whose name ends in `_id`
    (filled with the empty string). -/
def handle_missing_values (r : Play) : Play :=
  { r with
    touchdown := fillna 0 r.touchdown
    interception := fillna 0 r.interception
    sack := fillna 0 r.sack
    fumble := fillna 0 r.fumble
    complete_pass := fillna 0 r.complete_pass
    incomplete_pass := fillna 0 r.incomplete_pass
    first_down := fillna 0 r.first_down
    first_down_rush := fillna 0 r.first_down_rush
    first_down_pass := fillna 0 r.first_down_pass
    rush_attempt := fillna 0 r.rush_attempt
    pass_attempt := fillna 0 r.pass_attempt
    qb_dropback := fillna 0 r.qb_dropback
    qb_scramble := fillna 0 r.qb_scramble
    qb_kneel := fillna 0 r.qb_kneel
    qb_spike := fillna 0 r.qb_spike
    shotgun := fillna 0 r.shotgun
    no_huddle := fillna 0 r.no_huddle
    fumble_lost := fillna 0 r.fumble_lost
    pass_touchdown := fillna 0 r.pass_touchdown
    rush_touchdown := fillna 0 r.rush_touchdown
    success := fillna 0 r.success
    xpass := fillna 0 r.xpass
    special := fillna 0 r.special
    special_teams_play := fillna 0 r.special_teams_play
    score_differential := fillna 0 r.score_differential
    yardline_100 := fillna 50 r.yardline_100
    play_id := fillna "" r.play_id
    game_id := fillna "" r.game_id
    passer_player_id := fillna "" r.passer_player_id
    rusher_player_id := fillna "" r.rusher_player_id
    receiver_player_id := fillna "" r.receiver_player_id }

/-- `add_derived_fields`: indicator columns derived (with local `fillna`
    defaults exactly as in the source) from score_differential,
    yardline_100, down, xpass, qb_dropback and success. -/
def add_derived_fields (r : Play) : Play :=
  { r with
    is_trailing := some (b2q (decide (r.score_differential.getD 0 < 0)))
    is_leading := some (b2q (decide (0 < r.score_differential.getD 0)))
    is_red_zone := some (b2q (decide (r.yardline_100.getD 100 ≤ 20)))
    is_early_down := some (b2q (decide (r.down.getD 0 ≤ 2)))
    is_late_down := some (b2q (decide (3 ≤ r.down.getD 0)))
    is_likely_pass := some (b2q (decide (mkRat 1 2 ≤ r.xpass.getD 0)))
    is_dropback := some (pyIntQ (r.qb_dropback.getD 0))
    is_success := some (pyIntQ (r.success.getD 0)) }

/-- `convert_data_types`: int columns and boolean columns are
    `to_numeric(...).fillna(0).astype(int)`; float columns are
    `to_numeric` (nulls preserved); every `is_`-prefixed column is
    `fillna(0).astype(int)`. -/
def convert_data_types (r : Play) : Play :=
  { r with
    season := intCol r.season
    week := intCol r.week
    down := intCol r.down
    qtr := intCol r.qtr
    goal_to_go := intCol r.goal_to_go
    touchdown := intCol r.touchdown
    interception := intCol r.interception
    sack := intCol r.sack
    fumble := intCol r.fumble
    complete_pass := intCol r.complete_pass
    incomplete_pass := intCol r.incomplete_pass
    first_down := intCol r.first_down
    rush_attempt := intCol r.rush_attempt
    pass_attempt := intCol r.pass_attempt
    epa := floatCol r.epa
    qb_epa := floatCol r.qb_epa
    wp := floatCol r.wp
    wpa := floatCol r.wpa
    cpoe := floatCol r.cpoe
    xpass := floatCol r.xpass
    yardline_100 := floatCol r.yardline_100
    score_differential := floatCol r.score_differential
    shotgun := intCol r.shotgun
    no_huddle := intCol r.no_huddle
    qb_dropback := intCol r.qb_dropback
    qb_scramble := intCol r.qb_scramble
    qb_kneel := intCol r.qb_kneel
    qb_spike := intCol r.qb_spike
    success := intCol r.success
    fumble_lost := intCol r.fumble_lost
    first_down_rush := intCol r.first_down_rush
    first_down_pass := intCol r.first_down_pass
    is_trailing := intCol r.is_trailing
    is_leading := intCol r.is_leading
    is_red_zone := intCol r.is_red_zone
    is_early_down := intCol r.is_early_down
    is_late_down := intCol r.is_late_down
    is_likely_pass := intCol r.is_likely_pass
    is_dropback := intCol r.is_dropback
    is_success := intCol r.is_success }

/-- The fixed 9-value `valid_play_types` enumeration of `validate_data`. -/
def valid_play_types : List String :=
  ["pass", "run", "punt", "field_goal", "kickoff", "extra_point",
   "qb_kneel", "qb_spike", "no_play"]

/-- `validate_data`: four sequential row filters exactly as in the source —
    dropna on the critical fields, numeric-parse check on play_id,
    down range check, play_type enumeration check. Invalid rows are
    silently dropped; the function is total (never raises). -/
def validate_data (df : List Play) : List Play :=
  let step1 := df.filter fun r =>
    r.play_id.isSome && r.game_id.isSome && r.season.isSome
  let step2 := step1.filter fun r => (r.play_id.map toNumericOk).getD false
  let step3 := step2.filter fun r =>
    match r.down with
    | none => true
    | some d => decide (1 ≤ d ∧ d ≤ 4)
  step3.filter fun r =>
    match r.play_type with
    | none => true
    | some t => valid_play_types.contains t

/-- The per-row composition of the five per-row cleaning steps, in the
    `pipe` order of `clean_pbp_data`. -/
def transformRow (r : Play) : Play :=
  convert_data_types (add_derived_fields (handle_missing_values
    (normalize_team_abbreviations (filter_pbp_columns r))))

/-- `clean_pbp_data`: all cleaning steps in sequence; the first five are
    per-row, validation filters rows. -/
def clean_pbp_data (df : List Play) : List Play :=
  validate_data (df.map transformRow)

/-! ## Claim C4 — exactness of the validation step -/

/-- The row-retention predicate as the claim states it: a row is dropped
    exactly when it misses one of {play_id, game_id, season}, its play_id
    fails numeric parsing, its down is present but outside 1–4, or its
    play_type is present but outside the fixed 9-value enumeration;
    every other row is retained. -/
def c4_keep (r : Play) : Bool :=
  !(r.play_id.isNone || r.game_id.isNone || r.season.isNone
    || !((r.play_id.map toNumericOk).getD false)
    || (match r.down with
        | none => false
        | some d => !decide (1 ≤ d ∧ d ≤ 4))
    || (match r.play_type with
        | none => false
        | some t => !valid_play_types.contains t))

/-- Claim C4: `validate_data` drops exactly the rows missing one of
    {play_id, game_id, season}, the rows whose play_id fails numeric
    parsing, the rows with a present down outside 1–4, and the rows with a
    present play_type outside the 9-value enumeration; every other row
    (including rows with null down or null play_type) is retained, and the
    step is a total filter (it never raises). -/
theorem claim_C4_validation_exact (df : List Play) :
    validate_data df = df.filter c4_keep := by
  unfold validate_data
  simp only [List.filter_filter]
  apply List.filter_congr
  intro r _
  unfold c4_keep
  cases hp : r.play_id <;> cases hg : r.game_id <;> cases hs : r.season <;>
    cases hd : r.down <;> cases ht : r.play_type <;>
      simp [hp, hg, hs, hd, ht, Bool.and_assoc, Bool.and_comm, Bool.and_left_comm]

/-! ## Claim C9 — idempotence of the Cleaner -/

/-- A row whose `down` cell is null or holds an integer value (truncation in
    `convert_data_types` then leaves it unchanged). -/
def downIntegralB (r : Play) : Bool :=
  match r.down with
  | none => true
  | some d => d.den == 1

theorem pyIntQ_den_one {d : ℚ} (h : d.den = 1) : pyIntQ d = d := by
  have hnum : ((d.num : ℤ) : ℚ) = d := Rat.coe_int_num_of_den_eq_one h
  rw [← hnum]
  exact pyIntQ_of_intCast d.num

theorem down_getD_integral {r : Play} (h : downIntegralB r = true) :
    pyIntQ (r.down.getD 0) = r.down.getD 0 := by
  unfold downIntegralB at h
  cases hd : r.down with
  | none =>
    simp [pyIntQ, pyTrunc]
  | some d =>
    rw [hd] at h
    simp only [Option.getD_some]
    exact pyIntQ_den_one (by simpa using h)

theorem normTeam_of_not_key (x : String) (h1 : x ≠ "STL") (h2 : x ≠ "SD")
    (h3 : x ≠ "OAK") (h4 : x ≠ "JAC") (h5 : x ≠ "SL") (h6 : x ≠ "ARZ")
    (h7 : x ≠ "BLT") (h8 : x ≠ "CLV") (h9 : x ≠ "HST") : normTeam x = x := by
  unfold normTeam
  rw [if_neg h1, if_neg h2, if_neg h3, if_neg h4, if_neg h5, if_neg h6,
    if_neg h7, if_neg h8, if_neg h9]

theorem normTeam_normTeam (x : String) : normTeam (normTeam x) = normTeam x := by
  by_cases h1 : x = "STL"
  · subst h1; rfl
  by_cases h2 : x = "SD"
  · subst h2; rfl
  by_cases h3 : x = "OAK"
  · subst h3; rfl
  by_cases h4 : x = "JAC"
  · subst h4; rfl
  by_cases h5 : x = "SL"
  · subst h5; rfl
  by_cases h6 : x = "ARZ"
  · subst h6; rfl
  by_cases h7 : x = "BLT"
  · subst h7; rfl
  by_cases h8 : x = "CLV"
  · subst h8; rfl
  by_cases h9 : x = "HST"
  · subst h9; rfl
  have hx := normTeam_of_not_key x h1 h2 h3 h4 h5 h6 h7 h8 h9
  rw [hx]
  exact hx

@[simp]
theorem normTeam_comp : normTeam ∘ normTeam = normTeam :=
  funext normTeam_normTeam

@[simp]
theorem option_map_normTeam_normTeam (x : Option String) :
    (x.map normTeam).map normTeam = x.map normTeam := by
  rw [Option.map_map, normTeam_comp]

@[simp]
theorem fillna_getD {α : Type} (c y : α) (x : Option α) :
    (fillna c x).getD y = x.getD c := rfl

@[simp]
theorem intCol_getD (y : ℚ) (x : Option ℚ) :
    (intCol x).getD y = pyIntQ (x.getD 0) := rfl

/-- Normal form of the per-row cleaning composition: what each cell of a row
    holds after the five per-row steps (proved definitionally). -/
theorem transformRow_eq (r : Play) :
    transformRow r = Play.mk
      (fillna "" r.play_id)
      (fillna "" r.game_id)
      (intCol r.season)
      (intCol r.week)
      r.season_type
      (r.home_team.map normTeam)
      (r.away_team.map normTeam)
      (r.posteam.map normTeam)
      (r.defteam.map normTeam)
      r.game_date
      (intCol r.qtr)
      r.game_seconds_remaining
      r.half_seconds_remaining
      r.time_of_day
      (intCol r.down)
      r.ydstogo
      (floatCol (fillna 50 r.yardline_100))
      (intCol r.goal_to_go)
      (floatCol (fillna 0 r.score_differential))
      r.posteam_score
      r.defteam_score
      r.total_home_score
      r.total_away_score
      r.play_type
      (intCol (fillna 0 r.shotgun))
      (intCol (fillna 0 r.no_huddle))
      (intCol (fillna 0 r.qb_dropback))
      (intCol (fillna 0 r.qb_scramble))
      (intCol (fillna 0 r.qb_kneel))
      (intCol (fillna 0 r.qb_spike))
      r.pass_length
      r.pass_location
      r.run_location
      r.run_gap
      (floatCol r.epa)
      (floatCol r.qb_epa)
      (floatCol r.wp)
      (floatCol r.wpa)
      r.air_yards
      r.yards_after_catch
      (floatCol r.cpoe)
      (intCol (fillna 0 r.success))
      (floatCol (fillna 0 r.xpass))
      (intCol (fillna 0 r.first_down_rush))
      (intCol (fillna 0 r.first_down_pass))
      (intCol (fillna 0 r.first_down))
      (intCol (fillna 0 r.rush_attempt))
      (intCol (fillna 0 r.pass_attempt))
      (intCol (fillna 0 r.complete_pass))
      (intCol (fillna 0 r.incomplete_pass))
      (intCol (fillna 0 r.sack))
      (intCol (fillna 0 r.touchdown))
      (intCol (fillna 0 r.interception))
      (intCol (fillna 0 r.fumble))
      (intCol (fillna 0 r.fumble_lost))
      (fillna 0 r.pass_touchdown)
      (fillna 0 r.rush_touchdown)
      (fillna "" r.passer_player_id)
      r.passer_player_name
      r.passing_yards
      (fillna "" r.rusher_player_id)
      r.rusher_player_name
      r.rushing_yards
      (fillna "" r.receiver_player_id)
      r.receiver_player_name
      r.receiving_yards
      r.stadium
      r.roof
      r.surface
      r.temp
      r.wind
      r.div_game
      (fillna 0 r.special)
      (fillna 0 r.special_teams_play)
      (intCol (some (b2q (decide (r.score_differential.getD 0 < 0)))))
      (intCol (some (b2q (decide (0 < r.score_differential.getD 0)))))
      (intCol (some (b2q (decide (r.yardline_100.getD 50 ≤ 20)))))
      (intCol (some (b2q (decide (r.down.getD 0 ≤ 2)))))
      (intCol (some (b2q (decide (3 ≤ r.down.getD 0)))))
      (intCol (some (b2q (decide (mkRat 1 2 ≤ r.xpass.getD 0)))))
      (intCol (some (pyIntQ (r.qb_dropback.getD 0))))
      (intCol (some (pyIntQ (r.success.getD 0)))) := rfl

/-- The per-row cleaning composition is idempotent on every row whose raw
    `down` is null or integral. -/
theorem transformRow_idem {r : Play} (h : downIntegralB r = true) :
    transformRow (transformRow r) = transformRow r := by
  have hdown := down_getD_integral h
  rw [transformRow_eq r, transformRow_eq]
  simp only [floatCol, fillna_getD, intCol_getD, Option.getD_some,
    fillna_fillna, fillna_intCol, intCol_intCol, intCol_fillna_zero,
    option_map_normTeam_normTeam, pyIntQ_pyIntQ, hdown, Play.mk.injEq,
    and_self, and_true, true_and]

/-- The composite row-retention predicate of `validate_data` (the four
    sequential filters as one conjunction). -/
def validKeep (r : Play) : Bool :=
  (r.play_id.isSome && r.game_id.isSome && r.season.isSome)
    && (r.play_id.map toNumericOk).getD false
    && (match r.down with
        | none => true
        | some d => decide (1 ≤ d ∧ d ≤ 4))
    && (match r.play_type with
        | none => true
        | some t => valid_play_types.contains t)

theorem validate_data_eq_filter (l : List Play) :
    validate_data l = l.filter validKeep := by
  unfold validate_data
  simp only [List.filter_filter]
  apply List.filter_congr
  intro r _
  unfold validKeep
  cases r.down <;> cases r.play_type <;>
    simp [Bool.and_assoc, Bool.and_comm, Bool.and_left_comm]

theorem validate_data_idem (l : List Play) :
    validate_data (validate_data l) = validate_data l := by
  rw [validate_data_eq_filter, validate_data_eq_filter, List.filter_filter]
  apply List.filter_congr
  intro r _
  simp

/-- Every row of a cleaned table is a fixed point of the per-row cleaning
    composition, provided the raw table had only null-or-integral downs. -/
theorem clean_rows_fixed {df : List Play}
    (H : ∀ r ∈ df, downIntegralB r = true) :
    ∀ y ∈ clean_pbp_data df, transformRow y = y := by
  intro y hy
  unfold clean_pbp_data at hy
  rw [validate_data_eq_filter] at hy
  obtain ⟨hy1, _⟩ := List.mem_filter.mp hy
  obtain ⟨x, hx, rfl⟩ := List.mem_map.mp hy1
  exact transformRow_idem (H x hx)

theorem clean_map_transformRow_fixed {df : List Play}
    (H : ∀ r ∈ df, downIntegralB r = true) :
    (clean_pbp_data df).map transformRow = clean_pbp_data df := by
  rw [List.map_congr_left (clean_rows_fixed H)]
  simp

/-- A row with every cell null, used to build concrete test rows. -/
def emptyPlay : Play :=
  ⟨none, none, none, none, none, none, none, none, none, none, none, none,
   none, none, none, none, none, none, none, none, none, none, none, none,
   none, none, none, none, none, none, none, none, none, none, none, none,
   none, none, none, none, none, none, none, none, none, none, none, none,
   none, none, none, none, none, none, none, none, none, none, none, none,
   none, none, none, none, none, none, none, none, none, none, none, none,
   none, none, none, none, none, none, none, none, none, none⟩

/-- A well-formed raw row (integral down) that survives validation. -/
def goodPlayRow : Play :=
  { emptyPlay with
    play_id := some "7"
    game_id := some "G2"
    season := some 2021
    week := some 4
    season_type := some "REG"
    down := some 3
    play_type := some "run" }

/-- A raw row with the fractional down 5/2: it survives validation (the
    down is truncated to 2 before the range check), but its
    `is_early_down` flag flips between the first and the second cleaning
    pass. -/
def fracDownRow : Play :=
  { emptyPlay with
    play_id := some "1"
    game_id := some "G1"
    season := some 2020
    down := some (mkRat 5 2)
    play_type := some "pass" }

/-- Claim C9 (amended): for every input table whose `down` cells are null or
    integral, applying the Cleaner twice yields the same table as applying
    it once, and the validation filtering drops no rows on the second pass.
    (The column-projection step alone is not a per-step fixed point on
    cleaned data: it drops the derived `is_*` columns, which the derivation
    step then restores identically — see the counterexample for why the
    integrality hypothesis is needed at all.) -/
theorem claim_C9_cleaner_idempotent (df : List Play)
    (H : ∀ r ∈ df, downIntegralB r = true) :
    clean_pbp_data (clean_pbp_data df) = clean_pbp_data df ∧
      validate_data ((clean_pbp_data df).map transformRow) =
        (clean_pbp_data df).map transformRow := by
  have hmap := clean_map_transformRow_fixed H
  have hval : validate_data (clean_pbp_data df) = clean_pbp_data df :=
    validate_data_idem (df.map transformRow)
  constructor
  · show validate_data ((clean_pbp_data df).map transformRow)
      = clean_pbp_data df
    rw [hmap, hval]
  · rw [hmap, hval]

/-- Witness for C9 at a concrete one-row table. -/
theorem claim_C9_witness :
    (∀ r ∈ [goodPlayRow], downIntegralB r = true) ∧
      (clean_pbp_data (clean_pbp_data [goodPlayRow])
          = clean_pbp_data [goodPlayRow] ∧
        validate_data ((clean_pbp_data [goodPlayRow]).map transformRow) =
          (clean_pbp_data [goodPlayRow]).map transformRow) :=
  ⟨by decide, claim_C9_cleaner_idempotent [goodPlayRow] (by decide)⟩

/-- Counterexample to C9 as stated: on the one-row table with down = 5/2 the
    Cleaner is not idempotent — the first pass computes is_early_down from
    down 5/2 (false), truncates down to 2 and keeps the row; the second pass
    recomputes is_early_down from down 2 (true). -/
theorem claim_C9_counterexample :
    clean_pbp_data (clean_pbp_data [fracDownRow]) ≠
      clean_pbp_data [fracDownRow] := by
  have hne : (clean_pbp_data (clean_pbp_data [fracDownRow])).map
        Play.is_early_down ≠
      (clean_pbp_data [fracDownRow]).map Play.is_early_down := by
    decide
  exact fun h => hne (by rw [h])

/-! ## playstats.py — the Event Flag Enricher -/

/-- `set(range(2003, 2009))` in `find_bad_seasons`: the seasons
    2003–2008 inclusive. -/
def bad_season_check : List ℤ :=
  [2003, 2004, 2005, 2006, 2007, 2008]

/-- `find_bad_seasons`: which of the requested seasons fall in the
    2003–2008 window; returns (any overlap, the overlapping seasons). -/
def find_bad_seasons (season_list : List ℤ) : Bool × List ℤ :=
  let overlap := season_list.filter fun n => bad_season_check.contains n
  (!overlap.isEmpty, overlap)

theorem mem_bad_season_check (n : ℤ) :
    n ∈ bad_season_check ↔ 2003 ≤ n ∧ n ≤ 2008 := by
  unfold bad_season_check
  simp
  omega

theorem find_bad_seasons_overlap_mem (seasons : List ℤ) (n : ℤ) :
    n ∈ (find_bad_seasons seasons).2 ↔
      n ∈ seasons ∧ (2003 ≤ n ∧ n ≤ 2008) := by
  unfold find_bad_seasons
  simp [List.mem_filter, mem_bad_season_check]

theorem find_bad_seasons_fst_true {seasons : List ℤ} {n : ℤ}
    (h : n ∈ seasons) (hr : 2003 ≤ n ∧ n ≤ 2008) :
    (find_bad_seasons seasons).1 = true := by
  have hmem : n ∈ (find_bad_seasons seasons).2 :=
    (find_bad_seasons_overlap_mem seasons n).mpr ⟨h, hr⟩
  unfold find_bad_seasons at hmem ⊢
  simp only [Bool.not_eq_true']
  rw [List.isEmpty_eq_false_iff_exists_mem]
  exact ⟨n, hmem⟩

/-- `result["stat_id"].isin([14, 15, 16, 19])`: pass attempts. -/
def is_att (stat_id : ℤ) : Bool :=
  ([14, 15, 16, 19] : List ℤ).contains stat_id

/-- `str.strip()` on a character list (structural so that concrete
    evaluation reduces). -/
def pyStripLeft : List Char → List Char
  | [] => []
  | c :: cs => if c.isWhitespace then pyStripLeft cs else c :: cs

def pyStrip (l : List Char) : List Char :=
  (pyStripLeft (pyStripLeft l.reverse).reverse)

/-- `str.split(";")` on a character list. -/
def splitSemis : List Char → List (List Char)
  | [] => [[]]
  | c :: cs =>
    if c = ';' then [] :: splitSemis cs
    else
      match splitSemis cs with
      | [] => [[c]]
      | t :: ts => (c :: t) :: ts

/-- `has_id` from `process_playstats`: split the semicolon-joined stat list,
    strip each piece, and test membership of `str(id_value)`; a null cell
    gives False. -/
def has_id (idv : ℤ) (s : Option String) : Bool :=
  match s with
  | none => false
  | some str => ((splitSemis str.data).map pyStrip).contains (toString idv).data

/-- The era-aware target flag of the rollup step (playstats.py lines 43–48):
    with bad seasons requested, a row's is_target is
    `stat_id ∈ {21,22,115}` when its season is one of the overlapping bad
    seasons and `stat_id ∈ {115}` otherwise; with no bad season requested it
    is `stat_id == 115` (astype(int), same truth value). -/
def is_target_rollup (seasons : List ℤ) (season stat_id : ℤ) : Bool :=
  let bd := find_bad_seasons seasons
  if bd.1 then
    if bd.2.contains season then ([21, 22, 115] : List ℤ).contains stat_id
    else ([115] : List ℤ).contains stat_id
  else stat_id == 115

/-- The era-aware target flag of the final per-row column
    (playstats.py lines 148–151); textually the same branch as the rollup. -/
def is_target_final (seasons : List ℤ) (season stat_id : ℤ) : Bool :=
  let bd := find_bad_seasons seasons
  if bd.1 then
    if bd.2.contains season then ([21, 22, 115] : List ℤ).contains stat_id
    else ([115] : List ℤ).contains stat_id
  else stat_id == 115

/-- `qb_target` (playstats.py lines 137–140): with bad seasons requested, a
    row in an overlapping bad season needs only `is_att`; otherwise the
    team-play stat list must also contain code 115. -/
def qb_target (seasons : List ℤ) (season stat_id : ℤ)
    (team_stats : Option String) : Bool :=
  let bd := find_bad_seasons seasons
  if bd.1 then
    if bd.2.contains season then is_att stat_id
    else is_att stat_id && has_id 115 team_stats
  else is_att stat_id && has_id 115 team_stats

theorem find_bad_seasons_mem {seasons : List ℤ} {n : ℤ}
    (h : n ∈ seasons) (hr : 2003 ≤ n ∧ n ≤ 2008) :
    n ∈ (find_bad_seasons seasons).2 :=
  (find_bad_seasons_overlap_mem seasons n).mpr ⟨h, hr⟩

theorem find_bad_seasons_not_mem (seasons : List ℤ) {n : ℤ}
    (hr : ¬(2003 ≤ n ∧ n ≤ 2008)) :
    n ∉ (find_bad_seasons seasons).2 := fun hc =>
  hr ((find_bad_seasons_overlap_mem seasons n).mp hc).2

theorem int_beq_eq_decide (a b : ℤ) : (a == b) = decide (a = b) :=
  Bool.eq_iff_iff.mpr (by simp)

/-- Claim C2: for a row of a requested season (the loader loads exactly the
    requested seasons), if the season is in 2003–2008 then is_target is true
    exactly when stat_id ∈ {21,22,115}, and otherwise exactly when
    stat_id == 115; this holds independently for the rollup-step is_target
    (team/game denominators) and the final per-row is_target column, and
    the two evaluations agree on every row. -/
theorem claim_C2_era_invariant (seasons : List ℤ) (season stat_id : ℤ)
    (hmem : season ∈ seasons) :
    ((2003 ≤ season ∧ season ≤ 2008) →
        is_target_rollup seasons season stat_id
            = (stat_id == 21 || stat_id == 22 || stat_id == 115) ∧
          is_target_final seasons season stat_id
            = (stat_id == 21 || stat_id == 22 || stat_id == 115)) ∧
      (¬(2003 ≤ season ∧ season ≤ 2008) →
          is_target_rollup seasons season stat_id = (stat_id == 115) ∧
            is_target_final seasons season stat_id = (stat_id == 115)) ∧
      is_target_rollup seasons season stat_id
        = is_target_final seasons season stat_id := by
  refine ⟨?_, ?_, rfl⟩
  · intro hr
    have h1 := find_bad_seasons_fst_true hmem hr
    have h2 := find_bad_seasons_mem hmem hr
    constructor <;>
      simp [is_target_rollup, is_target_final, h1, h2, int_beq_eq_decide,
        Bool.or_assoc]
  · intro hr
    have h2 := find_bad_seasons_not_mem seasons hr
    cases h1 : (find_bad_seasons seasons).1 <;>
      constructor <;>
        simp [is_target_rollup, is_target_final, h1, h2, int_beq_eq_decide]

/-- Witness for C2: season 2005 requested, row season 2005, stat_id 22
    (a bad-era reception counted as a target). -/
theorem claim_C2_witness :
    ((2005 : ℤ) ∈ ([2005] : List ℤ)) ∧
      is_target_rollup [2005] 2005 22 = true ∧
      is_target_final [2005] 2005 22 = true := by
  have h := (claim_C2_era_invariant [2005] 2005 22 (by decide)).1 (by decide)
  refine ⟨by decide, ?_, ?_⟩
  · rw [h.1]
    decide
  · rw [h.2]
    decide

/-- Claim C10: for an enriched event of a requested season, in 2003–2008 the
    qb_target flag is exactly the pass-attempt test (no team stat-list
    check); outside that range it additionally requires code 115 in the
    semicolon-joined team-play stat list. -/
theorem claim_C10_qb_target_era (seasons : List ℤ) (season stat_id : ℤ)
    (team_stats : Option String) (hmem : season ∈ seasons) :
    ((2003 ≤ season ∧ season ≤ 2008) →
        qb_target seasons season stat_id team_stats = is_att stat_id) ∧
      (¬(2003 ≤ season ∧ season ≤ 2008) →
          qb_target seasons season stat_id team_stats
            = (is_att stat_id && has_id 115 team_stats)) := by
  constructor
  · intro hr
    have h1 := find_bad_seasons_fst_true hmem hr
    have h2 := find_bad_seasons_mem hmem hr
    simp [qb_target, h1, h2]
  · intro hr
    have h2 := find_bad_seasons_not_mem seasons hr
    cases h1 : (find_bad_seasons seasons).1 <;> simp [qb_target, h1, h2]

/-- Witness for C10: season 2004 requested, a pass attempt (stat_id 14)
    whose team-play stat list lacks code 115 still sets qb_target. -/
theorem claim_C10_witness :
    ((2004 : ℤ) ∈ ([2004] : List ℤ)) ∧
      qb_target [2004] 2004 14 (some "14;") = true ∧
      has_id 115 (some "14;") = false := by
  have h := (claim_C10_qb_target_era [2004] 2004 14 (some "14;")
    (by decide)).1 (by decide)
  refine ⟨by decide, ?_, by decide⟩
  rw [h]
  decide

/-- One raw stat-event row (the playstats table loaded by
    `load_playstats`), with `gsis_player_id`/`team_abbr` under their
    post-rename names `player_id`/`team`. -/
structure Event where
  game_id : String
  play_id : ℤ
  season : ℤ
  week : ℤ
  player_id : Option String
  team : String
  stat_id : ℤ
  yards : ℚ
deriving DecidableEq

/-- `playstats["gsis_player_id"].fillna("TEAM")`. -/
def fillPlayerId (e : Event) : Event :=
  { e with player_id := some (e.player_id.getD "TEAM") }

/-- The `drop_duplicates` subset `["game_id", "play_id", "gsis_player_id",
    "stat_id"]`. -/
def eventKey (e : Event) : String × ℤ × Option String × ℤ :=
  (e.game_id, e.play_id, e.player_id, e.stat_id)

/-- `drop_duplicates(subset=...)`: keep the first row of each key. -/
def dedupEvents : List (String × ℤ × Option String × ℤ) → List Event →
    List Event
  | _, [] => []
  | seen, e :: es =>
    if seen.contains (eventKey e) then dedupEvents seen es
    else e :: dedupEvents (eventKey e :: seen) es

/-- The event-restriction prefix of `process_playstats` (lines 33–41):
    fill null player ids with "TEAM", de-duplicate, and inner-merge with
    the distinct game_ids of the play-by-play table (a cleaned table, whose
    game_id cells are never null). -/
def playstats_load_filter (pbp : List Play) (events : List Event) :
    List Event :=
  let game_ids := (pbp.filterMap Play.game_id).dedup
  let deduped := dedupEvents [] (events.map fillPlayerId)
  deduped.filter fun e => game_ids.contains e.game_id

/-- A raw play that cleans to game "G1", play "1". -/
def c3RawPlay : Play :=
  { emptyPlay with
    play_id := some "1"
    game_id := some "G1"
    season := some 2020
    down := some 1
    play_type := some "pass" }

/-- An event of game "G1" but of play 2 — a play absent from the cleaned
    play table. -/
def c3Event : Event :=
  { game_id := "G1", play_id := 2, season := 2020, week := 1,
    player_id := some "P1", team := "KC", stat_id := 115, yards := 0 }

/-- Counterexample to C3 as stated: the event of play 2 leaks through the
    restriction step although no row of the canonical cleaned play table is
    play 2 — the inner merge keys on game_id only. -/
theorem claim_C3_counterexample :
    (∃ e ∈ playstats_load_filter (clean_pbp_data [c3RawPlay]) [c3Event],
        e.play_id = 2) ∧
      ∀ p ∈ clean_pbp_data [c3RawPlay], p.play_id ≠ some "2" := by
  constructor
  · exact ⟨fillPlayerId c3Event, by decide, by decide⟩
  · decide

/-- Claim C3 (amended): the enricher's restriction step keeps an event only
    if its game (not its play) is present in the canonical cleaned play
    table: every surviving event's game_id occurs on some canonical play
    row; events of dropped plays inside retained games leak through. -/
theorem claim_C3_game_restriction (pbp : List Play) (events : List Event)
    (e : Event) (he : e ∈ playstats_load_filter pbp events) :
    ∃ p ∈ pbp, p.game_id = some e.game_id := by
  unfold playstats_load_filter at he
  obtain ⟨_, h2⟩ := List.mem_filter.mp he
  have hmem : e.game_id ∈ (pbp.filterMap Play.game_id).dedup := by
    simpa using h2
  have hmem2 : e.game_id ∈ pbp.filterMap Play.game_id :=
    List.mem_dedup.mp hmem
  obtain ⟨p, hp, hpe⟩ := List.mem_filterMap.mp hmem2
  exact ⟨p, hp, hpe⟩

/-- Witness for the amended C3 at a concrete input. -/
theorem claim_C3_witness :
    fillPlayerId c3Event ∈
        playstats_load_filter (clean_pbp_data [c3RawPlay]) [c3Event] ∧
      ∃ p ∈ clean_pbp_data [c3RawPlay],
        p.game_id = some (fillPlayerId c3Event).game_id :=
  ⟨by decide,
    claim_C3_game_restriction (clean_pbp_data [c3RawPlay]) [c3Event]
      (fillPlayerId c3Event) (by decide)⟩

/-! ## pbp_off_stats.py — the scramble extractor -/

/-- The `"mean"` aggregation of `groupby(...).agg` / `Series.mean`: pandas
    computes the mean of the non-missing values and yields NaN only when
    every value is missing (GroupBy.mean: mean of groups, excluding missing
    values). -/
def seriesMean (xs : List (Option ℚ)) : Option ℚ :=
  let vs := xs.filterMap id
  if vs.isEmpty then none else some (vs.sum / (vs.length : ℚ))

/-- The sibling aggregation `lambda x: np.mean(x) if x.notna().any() else
    np.nan`; `np.mean` on a Series dispatches to `Series.mean`, which also
    skips missing values. -/
def npMeanOrNaN (xs : List (Option ℚ)) : Option ℚ :=
  if xs.any (·.isSome) then seriesMean xs else none

/-- One play of a scramble group (`qb_scramble == 1` rows sharing the
    grouping key); play_id is never null. -/
structure ScrambleRow where
  play_id : ℤ
  qb_epa : Option ℚ
  success : Option ℚ
deriving DecidableEq

structure ScrambleAgg where
  scrambles : ℕ
  scramble_epa : ℚ
  epa_per_scramble : Option ℚ
  scramble_success_rate : Option ℚ
deriving DecidableEq

/-- `get_scramble_stats` per-group aggregation: count of play_id (play_id is
    non-null, so the count is the group size), sum of qb_epa with
    skipna=True, `("qb_epa", "mean")`, and the guarded success mean. -/
def get_scramble_agg (g : List ScrambleRow) : ScrambleAgg :=
  { scrambles := g.length
    scramble_epa := ((g.map ScrambleRow.qb_epa).filterMap id).sum
    epa_per_scramble := seriesMean (g.map ScrambleRow.qb_epa)
    scramble_success_rate := npMeanOrNaN (g.map ScrambleRow.success) }

/-- Modelled from the spec claim wording: a mean computed "without skipping
    null values", so that the presence of any null makes the result reflect
    the null. -/
def meanNoSkipSpec (xs : List (Option ℚ)) : Option ℚ :=
  if xs.any (·.isNone) then none
  else if xs.isEmpty then none
  else some ((xs.filterMap id).sum / (xs.length : ℚ))

/-- A scramble group with one null qb_epa. -/
def c7Group : List ScrambleRow :=
  [{ play_id := 1, qb_epa := some 2, success := some 1 },
   { play_id := 2, qb_epa := none, success := some 0 }]

/-- Counterexample to C7 as stated: on a group containing a null qb_epa, the
    code's `("qb_epa", "mean")` yields the non-null mean 2 — identical to
    the sibling skipna semantics — whereas a mean that does not skip nulls
    would yield null. -/
theorem claim_C7_counterexample :
    (get_scramble_agg c7Group).epa_per_scramble = some 2 ∧
      (get_scramble_agg c7Group).epa_per_scramble
          = npMeanOrNaN (c7Group.map ScrambleRow.qb_epa) ∧
      meanNoSkipSpec (c7Group.map ScrambleRow.qb_epa) = none := by
  refine ⟨?_, ?_, by simp [c7Group, meanNoSkipSpec]⟩
  · show seriesMean (c7Group.map ScrambleRow.qb_epa) = some 2
    simp [c7Group, seriesMean]
  · show seriesMean (c7Group.map ScrambleRow.qb_epa)
      = npMeanOrNaN (c7Group.map ScrambleRow.qb_epa)
    simp [c7Group, seriesMean, npMeanOrNaN]

/-- Claim C7 (amended): epa_per_scramble is the pandas mean of qb_epa,
    which — exactly like the sibling means — skips missing values and is
    null only when every qb_epa in the group is null; the divergence from
    the sibling lambdas is syntactic, not semantic. -/
theorem claim_C7_epa_per_scramble_skips_nulls (g : List ScrambleRow) :
    (get_scramble_agg g).epa_per_scramble
      = npMeanOrNaN (g.map ScrambleRow.qb_epa) := by
  show seriesMean (g.map ScrambleRow.qb_epa)
    = npMeanOrNaN (g.map ScrambleRow.qb_epa)
  unfold npMeanOrNaN
  by_cases h : (g.map ScrambleRow.qb_epa).any (fun x => x.isSome) = true
  · rw [if_pos h]
  · rw [if_neg h]
    have hall : ∀ a ∈ g.map ScrambleRow.qb_epa, a = none := by
      intro a ha
      rcases a with _ | v
      · rfl
      · exact absurd (List.any_eq_true.mpr ⟨some v, ha, rfl⟩) h
    have hnil : (g.map ScrambleRow.qb_epa).filterMap id = [] := by
      rw [List.filterMap_eq_nil_iff]
      exact hall
    simp [seriesMean, hnil]

/-! ## process_stats.py — the Stat Aggregator (share metrics) -/

/-- One enriched playstats row as consumed by `process_stats` (the columns
    the ratio/share logic reads). -/
structure PSRow where
  season : ℤ
  week : ℤ
  game_id : String
  player_id : String
  team : String
  is_target : Bool
  qb_target : Bool
  air_yards : ℚ
  pass_yards : ℚ
  rec_yards : ℚ
  team_play_air_yards : ℚ
  team_game_targets : ℚ
  team_game_air_yards : ℚ
deriving DecidableEq

/-- `targets`: sum of is_target over the group. -/
def agg_targets (g : List PSRow) : ℚ :=
  (g.map fun r => b2q r.is_target).sum

/-- `qb_targets`: sum of qb_target over the group. -/
def agg_qb_targets (g : List PSRow) : ℚ :=
  (g.map fun r => b2q r.qb_target).sum

/-- `passing_air_yards`: sum of air_yards over the group. -/
def agg_passing_air_yards (g : List PSRow) : ℚ :=
  (g.map PSRow.air_yards).sum

/-- `passing_yards`: sum of pass_yards over the group. -/
def agg_passing_yards (g : List PSRow) : ℚ :=
  (g.map PSRow.pass_yards).sum

/-- `receiving_yards`: sum of rec_yards over the group. -/
def agg_receiving_yards (g : List PSRow) : ℚ :=
  (g.map PSRow.rec_yards).sum

/-- `recv_air_yards = np.where(is_target, team_play_air_yards, 0)`
    (process_stats.py line 143, player stat_type). -/
def recv_air_yards (r : PSRow) : ℚ :=
  if r.is_target then r.team_play_air_yards else 0

/-- `receiving_air_yards` for player stats: sum of recv_air_yards. -/
def agg_receiving_air_yards (g : List PSRow) : ℚ :=
  (g.map recv_air_yards).sum

/-- `team_targets_first`: aggfunc "first" on team_game_targets (groups are
    nonempty; the empty-group value is irrelevant). -/
def team_targets_first (g : List PSRow) : ℚ :=
  match g with
  | [] => 0
  | r :: _ => r.team_game_targets

/-- `team_air_yards_first`: aggfunc "first" on team_game_air_yards. -/
def team_air_yards_first (g : List PSRow) : ℚ :=
  match g with
  | [] => 0
  | r :: _ => r.team_game_air_yards

/-- `qb_adot = np.where(qb_targets != 0, passing_air_yards / qb_targets,
    np.nan)`. -/
def qb_adot (g : List PSRow) : Option ℚ :=
  if agg_qb_targets g ≠ 0 then some (agg_passing_air_yards g / agg_qb_targets g)
  else none

/-- `pacr = np.where(passing_air_yards != 0, passing_yards /
    passing_air_yards, np.nan)`. -/
def pacr (g : List PSRow) : Option ℚ :=
  if agg_passing_air_yards g ≠ 0 then
    some (agg_passing_yards g / agg_passing_air_yards g)
  else none

/-- `racr = np.where(receiving_air_yards != 0, receiving_yards /
    receiving_air_yards, np.nan)`. -/
def racr (g : List PSRow) : Option ℚ :=
  if agg_receiving_air_yards g ≠ 0 then
    some (agg_receiving_yards g / agg_receiving_air_yards g)
  else none

/-- `receiver_adot = np.where(targets != 0, receiving_air_yards / targets,
    np.nan)`. -/
def receiver_adot (g : List PSRow) : Option ℚ :=
  if agg_targets g ≠ 0 then some (agg_receiving_air_yards g / agg_targets g)
  else none

/-- Week-level `target_share` (process_stats.py lines 268–272). -/
def target_share_week (g : List PSRow) : Option ℚ :=
  if team_targets_first g ≠ 0 then some (agg_targets g / team_targets_first g)
  else none

/-- Week-level `air_yards_share` (lines 275–279). -/
def air_yards_share_week (g : List PSRow) : Option ℚ :=
  if team_air_yards_first g ≠ 0 then
    some (agg_receiving_air_yards g / team_air_yards_first g)
  else none

/-- Week-level `wopr` (lines 282–289): guarded by both first-denominators
    being nonzero (not positive). -/
def wopr_week (g : List PSRow) : Option ℚ :=
  if team_targets_first g ≠ 0 ∧ team_air_yards_first g ≠ 0 then
    some ((1.5 : ℚ) * (agg_targets g / team_targets_first g)
      + (0.7 : ℚ) * (agg_receiving_air_yards g / team_air_yards_first g))
  else none

/-- A distinct (season, player_id, team, game_id) combination
    (process_stats.py lines 199–202). -/
structure PlayerGame where
  season : ℤ
  player_id : String
  team : String
  game_id : String
deriving DecidableEq

/-- A distinct (season, game_id, team, team_game_targets,
    team_game_air_yards) combination (lines 205–213). -/
structure TeamGameStat where
  season : ℤ
  game_id : String
  team : String
  team_game_targets : ℚ
  team_game_air_yards : ℚ
deriving DecidableEq

/-- `playstats[[season, player_id, team, game_id]].drop_duplicates()`. -/
def player_games (ps : List PSRow) : List PlayerGame :=
  (ps.map fun r => PlayerGame.mk r.season r.player_id r.team r.game_id).dedup

/-- `playstats[[season, game_id, team, team_game_targets,
    team_game_air_yards]].drop_duplicates()`. -/
def team_game_stats (ps : List PSRow) : List TeamGameStat :=
  (ps.map fun r => TeamGameStat.mk r.season r.game_id r.team
    r.team_game_targets r.team_game_air_yards).dedup

/-- The rows of the team-game table matching one combination under the join
    key [season, game_id, team]. -/
def tgs_matches (tgs : List TeamGameStat) (c : PlayerGame) :
    List TeamGameStat :=
  tgs.filter fun m =>
    decide (m.season = c.season ∧ m.game_id = c.game_id ∧ m.team = c.team)

/-- `player_games.merge(team_game_stats, on=[season, game_id, team],
    how="left")` (lines 216–218): each combination is paired with every
    matching team-game row, or with a null row when there is no match. -/
def player_team_stats (ps : List PSRow) :
    List (PlayerGame × Option TeamGameStat) :=
  (player_games ps).flatMap fun c =>
    match tgs_matches (team_game_stats ps) c with
    | [] => [(c, none)]
    | ms => ms.map fun m => (c, some m)

/-- `player_team_stats.groupby([season, player_id, team]).agg(sum)`
    (lines 221–225) at one group key: the summed team-game targets and
    air yards (a null join partner contributes 0, as pandas sum skips
    NaN). -/
def player_team_totals (ps : List PSRow) (s : ℤ) (p t : String) : ℚ × ℚ :=
  let rows := (player_team_stats ps).filter fun x =>
    decide (x.1.season = s ∧ x.1.player_id = p ∧ x.1.team = t)
  ((rows.map fun x => ((x.2.map TeamGameStat.team_game_targets).getD 0)).sum,
   (rows.map fun x =>
      ((x.2.map TeamGameStat.team_game_air_yards).getD 0)).sum)

/-- Season-level `target_share` (lines 236–240): guarded by a positive
    re-derived denominator. -/
def target_share_season (ps g : List PSRow) (s : ℤ) (p t : String) :
    Option ℚ :=
  if (player_team_totals ps s p t).1 > 0 then
    some (agg_targets g / (player_team_totals ps s p t).1)
  else none

/-- Season-level `air_yards_share` (lines 242–247). -/
def air_yards_share_season (ps g : List PSRow) (s : ℤ) (p t : String) :
    Option ℚ :=
  if (player_team_totals ps s p t).2 > 0 then
    some (agg_receiving_air_yards g / (player_team_totals ps s p t).2)
  else none

/-- Season-level `wopr` (lines 250–256): null unless both re-derived
    denominators are positive. -/
def wopr_season (ps g : List PSRow) (s : ℤ) (p t : String) : Option ℚ :=
  if (player_team_totals ps s p t).1 > 0 ∧
      (player_team_totals ps s p t).2 > 0 then
    some ((1.5 : ℚ) * (agg_targets g / (player_team_totals ps s p t).1)
      + (0.7 : ℚ)
        * (agg_receiving_air_yards g / (player_team_totals ps s p t).2))
  else none

/-- An aggregator input row whose team denominators are (1, -2): one target
    on a catch behind the line of scrimmage, giving a negative team
    air-yards total. -/
def c6Row : PSRow :=
  { season := 2020, week := 1, game_id := "G1", player_id := "P1",
    team := "KC", is_target := true, qb_target := false, air_yards := 0,
    pass_yards := 0, rec_yards := 0, team_play_air_yards := -2,
    team_game_targets := 1, team_game_air_yards := -2 }

/-- Counterexample to C6 as stated: at week level wopr is guarded by
    `!= 0`, not `> 0`; with a negative team-air-yards denominator wopr is
    non-null although that denominator is not positive. -/
theorem claim_C6_counterexample :
    wopr_week [c6Row] = some ((2.2 : ℚ)) ∧
      team_air_yards_first [c6Row] = -2 ∧
      ¬ (0 : ℚ) < team_air_yards_first [c6Row] := by
  refine ⟨?_, rfl, by norm_num [team_air_yards_first, c6Row]⟩
  unfold wopr_week team_targets_first team_air_yards_first agg_targets
    agg_receiving_air_yards recv_air_yards c6Row b2q
  norm_num

/-- Claim C6 (amended): every derived ratio is null — never zero — when its
    denominator is zero, so no division by zero occurs; week-level wopr is
    null exactly when one of the two first-value denominators is zero
    (nonzero negative denominators still produce a value), and season-level
    wopr is null unless both re-derived denominators are positive. -/
theorem claim_C6_ratio_null_guards (g ps : List PSRow) (s : ℤ)
    (p t : String) :
    (agg_qb_targets g = 0 → qb_adot g = none) ∧
      (agg_passing_air_yards g = 0 → pacr g = none) ∧
      (agg_receiving_air_yards g = 0 → racr g = none) ∧
      (agg_targets g = 0 → receiver_adot g = none) ∧
      (team_targets_first g = 0 → target_share_week g = none) ∧
      (team_air_yards_first g = 0 → air_yards_share_week g = none) ∧
      ((player_team_totals ps s p t).1 = 0 →
        target_share_season ps g s p t = none) ∧
      ((player_team_totals ps s p t).2 = 0 →
        air_yards_share_season ps g s p t = none) ∧
      (wopr_week g = none ↔
        (team_targets_first g = 0 ∨ team_air_yards_first g = 0)) ∧
      (¬((player_team_totals ps s p t).1 > 0 ∧
          (player_team_totals ps s p t).2 > 0) →
        wopr_season ps g s p t = none) := by
  refine ⟨?_, ?_, ?_, ?_, ?_, ?_, ?_, ?_, ?_, ?_⟩
  · intro h
    simp [qb_adot, h]
  · intro h
    simp [pacr, h]
  · intro h
    simp [racr, h]
  · intro h
    simp [receiver_adot, h]
  · intro h
    simp [target_share_week, h]
  · intro h
    simp [air_yards_share_week, h]
  · intro h
    simp [target_share_season, h]
  · intro h
    simp [air_yards_share_season, h]
  · unfold wopr_week
    split
    · rename_i hcond
      simp only [reduceCtorEq, false_iff]
      push_neg
      exact ⟨hcond.1, hcond.2⟩
    · rename_i hcond
      simp only [true_iff]
      by_cases h1 : team_targets_first g = 0
      · exact Or.inl h1
      · exact Or.inr (by tauto)
  · intro h
    simp [wopr_season, h]

/-- Witness for C6 at the empty group / empty table, where every
    denominator is zero. -/
theorem claim_C6_witness :
    qb_adot [] = none ∧ pacr [] = none ∧ racr [] = none ∧
      receiver_adot [] = none ∧ target_share_week [] = none ∧
      air_yards_share_week [] = none ∧
      target_share_season [] [] 0 "" "" = none ∧
      air_yards_share_season [] [] 0 "" "" = none ∧
      wopr_week [] = none ∧ wopr_season [] [] 0 "" "" = none := by
  have h := claim_C6_ratio_null_guards [] [] 0 "" ""
  refine ⟨h.1 rfl, h.2.1 rfl, h.2.2.1 rfl, h.2.2.2.1 rfl, h.2.2.2.2.1 rfl,
    h.2.2.2.2.2.1 rfl, h.2.2.2.2.2.2.1 ?_, h.2.2.2.2.2.2.2.1 ?_,
    (h.2.2.2.2.2.2.2.2.1).mpr (Or.inl rfl), h.2.2.2.2.2.2.2.2.2 ?_⟩
  · rfl
  · rfl
  · norm_num [player_team_totals, player_team_stats, player_games]

/-- Modelled from the spec claim wording: the season-level share denominator
    is the sum, over the player's distinct (season, player, team, game)
    combinations with that team, of that game's team-level total, the
    team-level totals being a function `f` of (season, game, team). -/
def season_denominator_spec (f : ℤ → String → String → ℚ) (ps : List PSRow)
    (s : ℤ) (p t : String) : ℚ :=
  ∑ gm ∈ ((ps.filter fun r =>
      decide (r.season = s ∧ r.player_id = p ∧ r.team = t)).map
        PSRow.game_id).toFinset, f s gm t

/-- A filter of a duplicate-free list all of whose hits are a present
    element `a` is `[a]`. -/
theorem filter_eq_singleton_of_unique {α : Type} (l : List α) (P : α → Bool)
    (a : α) :
    l.Nodup → a ∈ l → P a = true → (∀ x ∈ l, P x = true → x = a) →
      l.filter P = [a] := by
  induction l with
  | nil =>
    intro _ ha _ _
    exact absurd ha (List.not_mem_nil a)
  | cons b bs ih =>
    intro hnd ha hPa huniq
    obtain ⟨hbnotin, hndtl⟩ := List.nodup_cons.mp hnd
    rw [List.filter_cons]
    rcases List.mem_cons.mp ha with hab | hatl
    · subst hab
      rw [if_pos hPa]
      have : bs.filter P = [] := by
        rw [List.filter_eq_nil_iff]
        intro x hx hPx
        exact hbnotin (huniq x (List.mem_cons_of_mem _ hx) hPx ▸ hx)
      rw [this]
    · have hPb : P b = false := by
        cases hb : P b
        · rfl
        · exact absurd (huniq b (List.mem_cons_self b bs) hb ▸ hatl)
            hbnotin
      rw [if_neg (by simp [hPb])]
      exact ih hndtl hatl hPa
        (fun x hx hPx => huniq x (List.mem_cons_of_mem _ hx) hPx)

/-- The unique team-game row a combination joins to, when the team-game
    totals columns are a function of (season, game, team). -/
def tgsOf (ftgt fair : ℤ → String → String → ℚ) (c : PlayerGame) :
    TeamGameStat :=
  ⟨c.season, c.game_id, c.team, ftgt c.season c.game_id c.team,
    fair c.season c.game_id c.team⟩

theorem tgs_matches_eq_singleton {ps : List PSRow}
    {ftgt fair : ℤ → String → String → ℚ}
    (Htgt : ∀ r ∈ ps, r.team_game_targets = ftgt r.season r.game_id r.team)
    (Hair : ∀ r ∈ ps,
      r.team_game_air_yards = fair r.season r.game_id r.team)
    {c : PlayerGame} (hc : c ∈ player_games ps) :
    tgs_matches (team_game_stats ps) c = [tgsOf ftgt fair c] := by
  obtain ⟨r, hr, hrc⟩ := List.mem_map.mp (List.mem_dedup.mp hc)
  subst hrc
  apply filter_eq_singleton_of_unique
  · exact List.nodup_dedup _
  · apply List.mem_dedup.mpr
    apply List.mem_map.mpr
    refine ⟨r, hr, ?_⟩
    simp [tgsOf, TeamGameStat.mk.injEq, Htgt r hr, Hair r hr]
  · simp [tgsOf]
  · intro m hm hPm
    obtain ⟨r2, hr2, hrm⟩ := List.mem_map.mp (List.mem_dedup.mp hm)
    subst hrm
    simp only [decide_eq_true_eq] at hPm
    obtain ⟨h1, h2, h3⟩ := hPm
    simp only [tgsOf, TeamGameStat.mk.injEq]
    refine ⟨h1, h2, h3, ?_, ?_⟩
    · rw [Htgt r2 hr2, h1, h2, h3]
    · rw [Hair r2 hr2, h1, h2, h3]

theorem leftjoin_filter_sum (tgs : List TeamGameStat)
    (u : PlayerGame → TeamGameStat) (Kb : PlayerGame → Bool)
    (val : TeamGameStat → ℚ) :
    ∀ combos : List PlayerGame,
      (∀ c ∈ combos, tgs_matches tgs c = [u c]) →
      (((combos.flatMap fun c =>
            match tgs_matches tgs c with
            | [] => [(c, (none : Option TeamGameStat))]
            | ms => ms.map fun m => (c, some m)).filter fun x =>
              Kb x.1).map fun x => (x.2.map val).getD 0).sum
        = ((combos.filter Kb).map fun c => val (u c)).sum := by
  intro combos
  induction combos with
  | nil =>
    intro _
    rfl
  | cons c cs ih =>
    intro h
    have hc := h c (List.mem_cons_self c cs)
    rw [List.flatMap_cons, hc, List.filter_append, List.map_append,
      List.sum_append, ih (fun x hx => h x (List.mem_cons_of_mem _ hx)),
      List.filter_cons]
    by_cases hK : Kb c = true
    · simp [hK]
    · simp [hK]

/-- The join key of the season-level share pass, as a Boolean predicate on
    combinations. -/
def comboKey (s : ℤ) (p t : String) (c : PlayerGame) : Bool :=
  decide (c.season = s ∧ c.player_id = p ∧ c.team = t)

theorem player_games_filter_nodup_gameids (ps : List PSRow) (s : ℤ)
    (p t : String) :
    (((player_games ps).filter (comboKey s p t)).map
      PlayerGame.game_id).Nodup := by
  apply List.Nodup.map_on
  · intro x hx y hy hxy
    obtain ⟨x1, x2, x3⟩ := of_decide_eq_true (List.mem_filter.mp hx).2
    obtain ⟨y1, y2, y3⟩ := of_decide_eq_true (List.mem_filter.mp hy).2
    cases x
    cases y
    simp only [PlayerGame.mk.injEq]
    simp only at x1 x2 x3 y1 y2 y3 hxy
    exact ⟨x1.trans y1.symm, x2.trans y2.symm, x3.trans y3.symm, hxy⟩
  · exact (List.nodup_dedup _).filter _

theorem player_games_filter_gameids_toFinset (ps : List PSRow) (s : ℤ)
    (p t : String) :
    (((player_games ps).filter (comboKey s p t)).map
        PlayerGame.game_id).toFinset
      = ((ps.filter fun r =>
          decide (r.season = s ∧ r.player_id = p ∧ r.team = t)).map
            PSRow.game_id).toFinset := by
  ext gm
  simp only [List.mem_toFinset, List.mem_map, List.mem_filter, player_games,
    List.mem_dedup, decide_eq_true_eq, comboKey]
  constructor
  · rintro ⟨c, ⟨hcmem, hK⟩, rfl⟩
    obtain ⟨r, hr, hrc⟩ := hcmem
    subst hrc
    exact ⟨r, ⟨hr, hK⟩, rfl⟩
  · rintro ⟨r, ⟨hr, hK⟩, rfl⟩
    exact ⟨PlayerGame.mk r.season r.player_id r.team r.game_id,
      ⟨⟨r, hr, rfl⟩, hK⟩, rfl⟩

/-- The two summed join totals equal the spec-side re-derived sums over the
    player's distinct games, whenever the team-game totals columns are a
    function of (season, game, team). -/
theorem player_team_totals_eq_spec (ps : List PSRow) (s : ℤ) (p t : String)
    (ftgt fair : ℤ → String → String → ℚ)
    (Htgt : ∀ r ∈ ps, r.team_game_targets = ftgt r.season r.game_id r.team)
    (Hair : ∀ r ∈ ps,
      r.team_game_air_yards = fair r.season r.game_id r.team) :
    (player_team_totals ps s p t).1 = season_denominator_spec ftgt ps s p t ∧
      (player_team_totals ps s p t).2
        = season_denominator_spec fair ps s p t := by
  have hsingle : ∀ c ∈ player_games ps,
      tgs_matches (team_game_stats ps) c = [tgsOf ftgt fair c] :=
    fun c hc => tgs_matches_eq_singleton Htgt Hair hc
  have hmemkey : ∀ c ∈ (player_games ps).filter (comboKey s p t),
      c.season = s ∧ c.player_id = p ∧ c.team = t := by
    intro c hc
    exact of_decide_eq_true (List.mem_filter.mp hc).2
  constructor
  · have h1 : (player_team_totals ps s p t).1
        = (((player_games ps).filter (comboKey s p t)).map fun c =>
            (tgsOf ftgt fair c).team_game_targets).sum :=
      leftjoin_filter_sum (team_game_stats ps) (tgsOf ftgt fair)
        (comboKey s p t) TeamGameStat.team_game_targets (player_games ps)
        hsingle
    rw [h1, List.map_congr_left (g := fun c => ftgt s c.game_id t)
      (fun c hc => by
        obtain ⟨e1, e2, e3⟩ := hmemkey c hc
        simp [tgsOf, e1, e3])]
    rw [show ((player_games ps).filter (comboKey s p t)).map
          (fun c => ftgt s c.game_id t)
        = (((player_games ps).filter (comboKey s p t)).map
            PlayerGame.game_id).map (fun gm => ftgt s gm t) by
      rw [List.map_map]
      rfl]
    rw [← List.sum_toFinset _ (player_games_filter_nodup_gameids ps s p t)]
    rw [player_games_filter_gameids_toFinset]
    rfl
  · have h1 : (player_team_totals ps s p t).2
        = (((player_games ps).filter (comboKey s p t)).map fun c =>
            (tgsOf ftgt fair c).team_game_air_yards).sum :=
      leftjoin_filter_sum (team_game_stats ps) (tgsOf ftgt fair)
        (comboKey s p t) TeamGameStat.team_game_air_yards (player_games ps)
        hsingle
    rw [h1, List.map_congr_left (g := fun c => fair s c.game_id t)
      (fun c hc => by
        obtain ⟨e1, e2, e3⟩ := hmemkey c hc
        simp [tgsOf, e1, e3])]
    rw [show ((player_games ps).filter (comboKey s p t)).map
          (fun c => fair s c.game_id t)
        = (((player_games ps).filter (comboKey s p t)).map
            PlayerGame.game_id).map (fun gm => fair s gm t) by
      rw [List.map_map]
      rfl]
    rw [← List.sum_toFinset _ (player_games_filter_nodup_gameids ps s p t)]
    rw [player_games_filter_gameids_toFinset]
    rfl

/-- Claim C5: for season-level player stats the target-share and
    air-yards-share denominators equal the sum, over the player's distinct
    (season, player, team, game) combinations with that team, of each
    game's team-level totals (the join-and-resum over distinct
    combinations), and the shares divide by exactly those summed totals.
    The hypotheses state that the merged team_game_* columns are a function
    of (season, game, team) — which holds by construction, since they are
    merged in from the (season, game_id, team) rollup. -/
theorem claim_C5_season_share_denominators (ps g : List PSRow) (s : ℤ)
    (p t : String) (ftgt fair : ℤ → String → String → ℚ)
    (Htgt : ∀ r ∈ ps, r.team_game_targets = ftgt r.season r.game_id r.team)
    (Hair : ∀ r ∈ ps,
      r.team_game_air_yards = fair r.season r.game_id r.team) :
    (player_team_totals ps s p t).1 = season_denominator_spec ftgt ps s p t ∧
      (player_team_totals ps s p t).2
        = season_denominator_spec fair ps s p t ∧
      target_share_season ps g s p t
        = (if season_denominator_spec ftgt ps s p t > 0 then
            some (agg_targets g / season_denominator_spec ftgt ps s p t)
          else none) ∧
      air_yards_share_season ps g s p t
        = (if season_denominator_spec fair ps s p t > 0 then
            some (agg_receiving_air_yards g
              / season_denominator_spec fair ps s p t)
          else none) := by
  obtain ⟨h1, h2⟩ := player_team_totals_eq_spec ps s p t ftgt fair Htgt Hair
  refine ⟨h1, h2, ?_, ?_⟩
  · unfold target_share_season
    rw [h1]
  · unfold air_yards_share_season
    rw [h2]

/-- The team-game target totals of the C5 witness input, as a function of
    the game. -/
def c5ftgt : ℤ → String → String → ℚ :=
  fun _ gm _ => if gm = "G1" then 3 else 4

/-- The team-game air-yards totals of the C5 witness input. -/
def c5fair : ℤ → String → String → ℚ :=
  fun _ gm _ => if gm = "G1" then 5 else 6

/-- Witness input: one player with the same team in two games, whose
    team-game totals differ between the games. -/
def c5Row1 : PSRow :=
  { season := 2020, week := 1, game_id := "G1", player_id := "P1",
    team := "KC", is_target := true, qb_target := false, air_yards := 0,
    pass_yards := 0, rec_yards := 0, team_play_air_yards := 0,
    team_game_targets := 3, team_game_air_yards := 5 }

def c5Row2 : PSRow :=
  { season := 2020, week := 2, game_id := "G2", player_id := "P1",
    team := "KC", is_target := true, qb_target := false, air_yards := 0,
    pass_yards := 0, rec_yards := 0, team_play_air_yards := 0,
    team_game_targets := 4, team_game_air_yards := 6 }

def c5ps : List PSRow :=
  [c5Row1, c5Row2]

/-- Witness for C5 at the concrete two-game input. -/
theorem claim_C5_witness :
    (∀ r ∈ c5ps, r.team_game_targets = c5ftgt r.season r.game_id r.team) ∧
      (∀ r ∈ c5ps,
        r.team_game_air_yards = c5fair r.season r.game_id r.team) ∧
      ((player_team_totals c5ps 2020 "P1" "KC").1
          = season_denominator_spec c5ftgt c5ps 2020 "P1" "KC" ∧
        (player_team_totals c5ps 2020 "P1" "KC").2
            = season_denominator_spec c5fair c5ps 2020 "P1" "KC" ∧
        target_share_season c5ps [] 2020 "P1" "KC"
          = (if season_denominator_spec c5ftgt c5ps 2020 "P1" "KC" > 0 then
              some (agg_targets []
                / season_denominator_spec c5ftgt c5ps 2020 "P1" "KC")
            else none) ∧
        air_yards_share_season c5ps [] 2020 "P1" "KC"
          = (if season_denominator_spec c5fair c5ps 2020 "P1" "KC" > 0 then
              some (agg_receiving_air_yards []
                / season_denominator_spec c5fair c5ps 2020 "P1" "KC")
            else none)) :=
  ⟨by decide, by decide,
    claim_C5_season_share_denominators c5ps [] 2020 "P1" "KC" c5ftgt c5fair
      (by decide) (by decide)⟩

/-! ## calculate_stats.py — the entry point -/

/-- Number of required positional parameters of `process_playstats`
    (playstats.py line 6: `def process_playstats(pbp, seasons,
    summary_level)` — no defaults). -/
def process_playstats_required_params : Nat := 3

/-- Number of positional arguments passed at the call site inside
    `calculate_stats` (calculate_stats.py line 108:
    `process_playstats(pbp, seasons)`). -/
def calculate_stats_playstats_args : Nat := 2

/-- Outcome of a `calculate_stats` call: a raised ValueError, the printed
    warning plus returned empty DataFrame, a raised TypeError, or the
    continuation into the extractor/aggregator stages (modelled separately
    by the definitions above). -/
inductive CalcResult where
  | valueError (msg : String)
  | emptyDiagnostic (msg : String)
  | typeError (msg : String)
  | completed
deriving DecidableEq

/-- Does the entry point apply the season_type filter
    (calculate_stats.py line 100)? -/
def seasonFilterApplies (summary_level season_type : String) : Bool :=
  (["REG", "POST"] : List String).contains season_type
    && (summary_level == "season")

/-- The play-by-play table right after the conditional season_type filter
    (lines 98–101): cleaned, and filtered only for season-level REG/POST
    calls. -/
def pbp_after_season_filter (pbp_raw : List Play)
    (summary_level season_type : String) : List Play :=
  let pbp := clean_pbp_data pbp_raw
  if seasonFilterApplies summary_level season_type then
    pbp.filter fun r => r.season_type == some season_type
  else pbp

/-- `calculate_stats`: validate the three enum parameters, clean the loaded
    play-by-play data, apply the conditional season_type filter with the
    empty-result diagnostic, then invoke `process_playstats(pbp, seasons)` —
    a call that passes two positional arguments to a function requiring
    three, hence a TypeError whenever it is reached. -/
def calculate_stats (pbp_raw : List Play) (seasons : List ℤ)
    (summary_level stat_type season_type : String) : CalcResult :=
  if !(["season", "week"] : List String).contains summary_level then
    .valueError "summary_level must be season or week"
  else if !(["player", "team"] : List String).contains stat_type then
    .valueError "stat_type must be player or team"
  else if !(["REG", "POST", "ALL"] : List String).contains season_type then
    .valueError "season_type must be REG, POST, or ALL"
  else
    let pbp2 := pbp_after_season_filter pbp_raw summary_level season_type
    if seasonFilterApplies summary_level season_type && pbp2.isEmpty then
      .emptyDiagnostic
        (s!"Warning: Filtering {seasons} data to season_type == {season_type} resulted in 0 rows. Returning empty DataFrame.")
    else if calculate_stats_playstats_args
        < process_playstats_required_params then
      .typeError
        "process_playstats() missing 1 required positional argument: summary_level"
    else
      .completed

/-- Claim C1: every call with valid summary_level, stat_type and
    season_type in which at least one play row remains after the
    season_type filter raises a TypeError at the two-argument
    `process_playstats(pbp, seasons)` call, before any aggregation;
    calculate_stats never returns a populated stats table. -/
theorem claim_C1_arity_type_error (pbp_raw : List Play) (seasons : List ℤ)
    (summary_level stat_type season_type : String)
    (h1 : summary_level ∈ (["season", "week"] : List String))
    (h2 : stat_type ∈ (["player", "team"] : List String))
    (h3 : season_type ∈ (["REG", "POST", "ALL"] : List String))
    (h4 : pbp_after_season_filter pbp_raw summary_level season_type ≠ []) :
    calculate_stats pbp_raw seasons summary_level stat_type season_type
      = .typeError
        "process_playstats() missing 1 required positional argument: summary_level" := by
  unfold calculate_stats
  rw [if_neg (by simp [h1]), if_neg (by simp [h2]), if_neg (by simp [h3])]
  have hne : (pbp_after_season_filter pbp_raw summary_level
      season_type).isEmpty = false := by
    rw [List.isEmpty_eq_false_iff_exists_mem]
    exact List.exists_mem_of_ne_nil _ h4
  rw [if_neg (by simp [hne]), if_pos (by decide)]

/-- Witness for C1: a season-level REG call on a one-row table that
    survives cleaning and filtering. -/
theorem claim_C1_witness :
    ("season" ∈ (["season", "week"] : List String)) ∧
      ("player" ∈ (["player", "team"] : List String)) ∧
      ("REG" ∈ (["REG", "POST", "ALL"] : List String)) ∧
      pbp_after_season_filter [goodPlayRow] "season" "REG" ≠ [] ∧
      calculate_stats [goodPlayRow] [2021] "season" "player" "REG"
        = .typeError
          "process_playstats() missing 1 required positional argument: summary_level" :=
  ⟨by decide, by decide, by decide, by decide,
    claim_C1_arity_type_error [goodPlayRow] [2021] "season" "player" "REG"
      (by decide) (by decide) (by decide) (by decide)⟩

/-- Claim C8: a season-level call with season_type REG or POST whose filter
    leaves zero rows returns the explicit empty result with a diagnostic
    message, and raises neither a ValueError nor a TypeError. -/
theorem claim_C8_empty_filter_diagnostic (pbp_raw : List Play)
    (seasons : List ℤ) (stat_type season_type : String)
    (h2 : stat_type ∈ (["player", "team"] : List String))
    (h3 : season_type ∈ (["REG", "POST"] : List String))
    (h4 : pbp_after_season_filter pbp_raw "season" season_type = []) :
    calculate_stats pbp_raw seasons "season" stat_type season_type
        = .emptyDiagnostic
          (s!"Warning: Filtering {seasons} data to season_type == {season_type} resulted in 0 rows. Returning empty DataFrame.")
      ∧ (∀ m, calculate_stats pbp_raw seasons "season" stat_type season_type
          ≠ .valueError m)
      ∧ (∀ m, calculate_stats pbp_raw seasons "season" stat_type season_type
          ≠ .typeError m) := by
  have h3d : season_type = "REG" ∨ season_type = "POST" := by
    simpa using h3
  have h3' : season_type ∈ (["REG", "POST", "ALL"] : List String) := by
    rcases h3d with h | h <;> subst h <;> decide
  have happlies : seasonFilterApplies "season" season_type = true := by
    rcases h3d with h | h <;> subst h <;> decide
  have hmain : calculate_stats pbp_raw seasons "season" stat_type season_type
      = .emptyDiagnostic
        (s!"Warning: Filtering {seasons} data to season_type == {season_type} resulted in 0 rows. Returning empty DataFrame.") := by
    unfold calculate_stats
    rw [if_neg (by decide), if_neg (by simp [h2]), if_neg (by simp [h3'])]
    rw [if_pos (by simp [happlies, h4])]
  refine ⟨hmain, ?_, ?_⟩
  · intro m
    rw [hmain]
    exact fun hcon => CalcResult.noConfusion hcon
  · intro m
    rw [hmain]
    exact fun hcon => CalcResult.noConfusion hcon

/-- Witness for C8: a one-row REG table filtered to POST leaves zero rows. -/
theorem claim_C8_witness :
    ("player" ∈ (["player", "team"] : List String)) ∧
      ("POST" ∈ (["REG", "POST"] : List String)) ∧
      pbp_after_season_filter [goodPlayRow] "season" "POST" = [] ∧
      (calculate_stats [goodPlayRow] [2021] "season" "player" "POST"
          = .emptyDiagnostic
            (s!"Warning: Filtering {([2021] : List ℤ)} data to season_type == POST resulted in 0 rows. Returning empty DataFrame.")
        ∧ (∀ m, calculate_stats [goodPlayRow] [2021] "season" "player" "POST"
            ≠ .valueError m)
        ∧ (∀ m, calculate_stats [goodPlayRow] [2021] "season" "player" "POST"
            ≠ .typeError m)) :=
  ⟨by decide, by decide, by decide,
    claim_C8_empty_filter_diagnostic [goodPlayRow] [2021] "player" "POST"
      (by decide) (by decide) (by decide)⟩
